import Mathlib

/-!
Verification of the Agent Gateway (`backend/server.py`).

This file gives a shallow embedding of the gateway's core logic — the token
service, the agent instance cache, the request handlers with their response
normalization, and the credential/history store interactions — and proves the
behavioural properties claimed for it.

Modelling conventions:
* Python `datetime` instants are `Nat` seconds.
* An awaited effectful step (an agent invocation, a store read/write) is a
  parameter of type `Eff α := Except String α`; `.error msg` models the step
  raising an exception whose `str(exc)` is `msg`.
* A handler that can re-raise an `HTTPException` returns
  `Except HTTPError body`; `.error` is a transport-level status response,
  `.ok` is an HTTP-200 response with a structured body.
* Dynamic values stored in an agent result's metadata mapping are `PyVal`
  (Python `None`, `int`, `bool`, `str`).
-/

namespace Gateway

/-- Outcome of one awaited effectful step: `.ok` a value, `.error` the
`str(exc)` of a raised exception. -/
abbrev Eff (α : Type) := Except String α

/-- A FastAPI `HTTPException`, i.e. a transport-level status response. -/
structure HTTPError where
  status : Nat
  detail : String
deriving DecidableEq, Repr

/-- Is an `Except` value a success (for handlers: an HTTP-200 structured
body rather than a transport-level status response)? -/
def exceptOk {ε α : Type} : Except ε α → Bool
  | .ok _ => true
  | .error _ => false

/-- First component of a handler's `.ok` payload: the structured body. -/
def bodyOf? {ε α β : Type} : Except ε (α × β) → Option α
  | .ok (b, _) => some b
  | .error _ => none

/-! ### Python dynamic values (metadata entries) -/

/-- A Python value as it can occur in an agent result's metadata mapping. -/
inductive PyVal where
  | none
  | int (n : Int)
  | bool (b : Bool)
  | str (s : String)
deriving DecidableEq, Repr

/-- Parse a decimal digit run, most significant first (`acc` is the prefix
already read). `none` when a non-digit char occurs. -/
def parseDigits : List Char → Nat → Option Nat
  | [], acc => some acc
  | c :: rest, acc =>
      if c.isDigit then parseDigits rest (acc * 10 + (c.toNat - 48)) else none

/-- Python `int(s)` on a plain decimal string literal: optional sign, then at
least one digit. `none` models `int` raising `ValueError`. -/
def pyStrToInt : String → Option Int
  | s =>
    match s.data with
    | [] => Option.none
    | '-' :: rest =>
        if rest = [] then Option.none else (parseDigits rest 0).map (fun n => -(n : Int))
    | '+' :: rest =>
        if rest = [] then Option.none else (parseDigits rest 0).map (fun n => (n : Int))
    | l => (parseDigits l 0).map (fun n => (n : Int))

/-- Python truthiness of a `PyVal`. -/
def pyTruthy : PyVal → Bool
  | .none => false
  | .int n => n != 0
  | .bool b => b
  | .str s => s != ""

/-- Python `a or b`. -/
def pyOr (a b : PyVal) : PyVal := if pyTruthy a then a else b

/-- Python `int(v)`: `.error` models the raised `TypeError`/`ValueError`. -/
def pyIntCoerce : PyVal → Except String Int
  | .int n => .ok n
  | .bool b => .ok (if b then 1 else 0)
  | .str s =>
      match pyStrToInt s with
      | some n => .ok n
      | Option.none => .error ("invalid literal for int() with base 10: \x27" ++ s ++ "\x27")
  | .none => .error "int() argument must be a string or a real number, not \x27NoneType\x27"

/-- The integer a numeric `PyVal` denotes (`none` for non-numeric values).
`int` and `bool` are numeric; a string is numeric when it parses as a decimal
integer; Python `None` is not numeric. -/
def numericValue : PyVal → Option Int
  | .int n => some n
  | .bool b => some (if b then 1 else 0)
  | .str s => pyStrToInt s
  | .none => Option.none

/-- An agent result's metadata mapping (a Python dict). -/
abbrev Metadata := List (String × PyVal)

/-- Python `d.get(k, default)` on a metadata dict. -/
def dictGet (m : Metadata) (k : String) (default : PyVal) : PyVal :=
  match m.find? (fun kv => kv.1 = k) with
  | some kv => kv.2
  | Option.none => default

/-- The tool-invocation counter the search handler reads:
`metadata.get("tool_run_count", metadata.get("tools_used", 0))`. -/
def toolCount (m : Metadata) : PyVal :=
  dictGet m "tool_run_count" (dictGet m "tools_used" (.int 0))

/-! ### Agents (external `ai_agents` collaborators, at their interface) -/

/-- Opaque configuration handed to agent constructors
(`ai_agents.agents.AgentConfig`; its contents are irrelevant to the gateway). -/
structure AgentConfig where
  api_key : String
deriving DecidableEq, Repr

/-- A live agent instance as cached by the gateway: `server.py` constructs
`ChatAgent(config)` or `SearchAgent(config)`. -/
inductive AgentHandle where
  | chatAgent (config : AgentConfig)
  | searchAgent (config : AgentConfig)
deriving DecidableEq, Repr

/-- The outcome of one agent invocation, as `server.py` consumes it
(`result.success`, `result.content`, `result.metadata`, `result.error`). -/
structure AgentResult where
  success : Bool
  content : String
  metadata : Option Metadata
  error : Option String
deriving DecidableEq, Repr

/-- Modelled from the spec: the agent interface's `get_capabilities()` — the
concrete `ai_agents` implementations are outside `src/`; the spec only says
each agent reports a set of capability strings, whose particular values no
claim depends on. -/
def get_capabilities : AgentHandle → List String
  | .chatAgent _ => ["conversation", "analysis"]
  | .searchAgent _ => ["web_search", "summarization"]

/-! ### Token service (`_create_token`, `_get_current_user`) -/

/-- The claims a token binds: `{"user_id": ..., "username": ..., "exp": ...}`. -/
structure TokenPayload where
  user_id : String
  username : String
  exp : Nat
deriving DecidableEq, Repr

/-- A signed token. The HMAC signature is idealized as the pair of the signing
secret and the signed payload: it verifies against exactly that secret and
payload (standard symmetric signing primitive, per the spec's interface). -/
structure Token where
  payload : TokenPayload
  sig : String × TokenPayload
deriving DecidableEq, Repr

/-- `jwt.encode(payload, secret, algorithm)`. -/
def jwtEncode (payload : TokenPayload) (secret : String) : Token :=
  ⟨payload, (secret, payload)⟩

/-- Verification errors: PyJWT's `ExpiredSignatureError` (a token past its
`exp` claim) versus any other `InvalidTokenError`. -/
inductive AuthError where
  | expiredToken
  | invalidToken
deriving DecidableEq, Repr

/-- `jwt.decode(token, secret, algorithms)`: the signature is verified first;
then the `exp` claim fails the check when `exp <= now` (PyJWT rejects at or
after the expiry instant, with zero leeway). -/
def jwtDecode (tok : Token) (secret : String) (now : Nat) : Except AuthError TokenPayload :=
  if tok.sig = (secret, tok.payload) then
    if tok.payload.exp ≤ now then .error .expiredToken
    else .ok tok.payload
  else .error .invalidToken

/-- `_create_token`: payload `{user_id, username, exp = now + 86400 * 7}`
signed with the process secret. -/
def _create_token (user_id username : String) (now : Nat) (secret : String) : Token :=
  jwtEncode ⟨user_id, username, now + 86400 * 7⟩ secret

/-- `_get_current_user`: decode the bearer token; `ExpiredSignatureError`
becomes 401 "Token expired", `InvalidTokenError` becomes 401 "Invalid token";
on success the decoded payload is the identity claim. -/
def _get_current_user (tok : Token) (secret : String) (now : Nat) :
    Except HTTPError TokenPayload :=
  match jwtDecode tok secret now with
  | .ok payload => .ok payload
  | .error .expiredToken => .error ⟨401, "Token expired"⟩
  | .error .invalidToken => .error ⟨401, "Invalid token"⟩

/-! ### Credential store and password hashing -/

/-- A document of the `users` collection, as `signup` inserts it. -/
structure UserDoc where
  id : String
  username : String
  email : String
  password : String
  created_at : Nat
deriving DecidableEq, Repr

/-- Modelled from the spec: bcrypt salted hashing (`bcrypt.hashpw`), an
external primitive ("salted hash/verify", spec §1). The model records the
salt and the password so verification can recompute the digest. -/
def _hash_password (password : String) (salt : String) : String :=
  salt ++ ":" ++ password

/-- Modelled from the spec: `bcrypt.checkpw(password, hashed)` — the stored
hash verifies exactly against the password it recorded. -/
def _verify_password (password : String) (hashed : String) : Bool :=
  (":" ++ password).data.isSuffixOf hashed.data

/-- `db.users.find_one({"username": username})` on the collection contents. -/
def userLookup (db : List UserDoc) (username : String) : Option UserDoc :=
  db.find? (fun u => u.username = username)

/-- The `AuthResponse` model (token kept structured, not serialized). -/
structure AuthResponse where
  success : Bool
  token : Option Token
  username : Option String
  message : Option String
deriving DecidableEq, Repr

/-- The `signup` handler. `find_user`, `find_email` and `ins` are the outcomes
of the three awaited store steps (the two pre-insert lookups and the insert);
`db` is the `users` collection before the request, returned updated. Any
store exception lands in the handler's catch-all, which renders
`AuthResponse(success=False, message=str(exc))`. -/
def signup (db : List UserDoc) (find_user : Eff (Option UserDoc))
    (find_email : Eff (Option UserDoc)) (ins : Eff Unit)
    (username email password salt newId : String) (now : Nat) (secret : String) :
    AuthResponse × List UserDoc :=
  match find_user with
  | .error e => (⟨false, none, none, some e⟩, db)
  | .ok (some _) => (⟨false, none, none, some "Username already exists"⟩, db)
  | .ok Option.none =>
    match find_email with
    | .error e => (⟨false, none, none, some e⟩, db)
    | .ok (some _) => (⟨false, none, none, some "Email already exists"⟩, db)
    | .ok Option.none =>
      match ins with
      | .error e => (⟨false, none, none, some e⟩, db)
      | .ok _ =>
        (⟨true, some (_create_token newId username now secret), some username,
            some "Account created successfully"⟩,
          db ++ [⟨newId, username, email, _hash_password password salt, now⟩])

/-- The `login` handler. `find_user` is the outcome of the awaited
`db.users.find_one({"username": ...})`; a missing user and a failed password
check share one branch, exactly as in the source
(`if not user_doc or not _verify_password(...)`). -/
def login (find_user : Eff (Option UserDoc)) (username password : String)
    (now : Nat) (secret : String) : AuthResponse :=
  match find_user with
  | .error e => ⟨false, none, none, some e⟩
  | .ok Option.none => ⟨false, none, none, some "Invalid username or password"⟩
  | .ok (some doc) =>
    if _verify_password password doc.password then
      ⟨true, some (_create_token doc.id doc.username now secret), some doc.username,
        some "Login successful"⟩
    else ⟨false, none, none, some "Invalid username or password"⟩

/-! ### Agent instance cache (`_get_or_create_agent`) -/

/-- The process-wide agent cache `app.state.agent_cache`, a dict from
agent-type tag to live handle (association list, first match wins, keys are
unique because insertion only happens at an absent key). -/
abbrev AgentCache := List (String × AgentHandle)

/-- Python dict lookup `cache[agent_type]` / `agent_type in cache`. -/
def alookup (k : String) : AgentCache → Option AgentHandle
  | [] => Option.none
  | (k₂, v) :: rest => if k = k₂ then some v else alookup k rest

/-- `_get_or_create_agent`: return the cached handle when the tag is present;
otherwise construct the recognized agent ("search" checked first, then
"chat"), insert it, and return it; unrecognized tags raise
`HTTPException(400, "Unknown agent type '...'")`. -/
def _get_or_create_agent (cache : AgentCache) (agent_type : String)
    (config : AgentConfig) : Except HTTPError (AgentHandle × AgentCache) :=
  match alookup agent_type cache with
  | some h => .ok (h, cache)
  | Option.none =>
    if agent_type = "search" then
      .ok (.searchAgent config, cache ++ [(agent_type, .searchAgent config)])
    else if agent_type = "chat" then
      .ok (.chatAgent config, cache ++ [(agent_type, .chatAgent config)])
    else
      .error ⟨400, "Unknown agent type \x27" ++ agent_type ++ "\x27"⟩

/-! ### Response models and request handlers -/

/-- The `MotivationalChatResponse` model. -/
structure MotivationalChatResponse where
  success : Bool
  response : String
  timestamp : Nat
  error : Option String
deriving DecidableEq, Repr

/-- The `DailyQuoteResponse` model. -/
structure DailyQuoteResponse where
  success : Bool
  quote : String
  timestamp : Nat
  error : Option String
deriving DecidableEq, Repr

/-- The `ChatMessage` model, one persisted conversation record. -/
structure ChatMessage where
  id : String
  user_id : String
  message : String
  response : String
  timestamp : Nat
deriving DecidableEq, Repr

/-- The body of `GET /chat/history` (a plain dict in the source: `messages`
present on success, `error` present on failure). -/
structure HistoryBody where
  success : Bool
  messages : Option (List ChatMessage)
  error : Option String
deriving DecidableEq, Repr

/-- The `ChatResponse` model. -/
structure ChatResponse where
  success : Bool
  response : String
  agent_type : String
  capabilities : List String
  metadata : Metadata
  error : Option String
deriving DecidableEq, Repr

/-- The `SearchResponse` model. -/
structure SearchResponse where
  success : Bool
  query : String
  summary : String
  search_results : Option Metadata
  sources_count : Int
  error : Option String
deriving DecidableEq, Repr

/-- The body of `GET /agents/capabilities` (a plain dict in the source). -/
structure CapabilitiesBody where
  success : Bool
  search_agent : Option (List String)
  chat_agent : Option (List String)
  error : Option String
deriving DecidableEq, Repr

/-- The fixed persona preamble the companion-chat operation prepends to the
user message. -/
def motivationalPrompt (message : String) : String :=
  "You are a supportive and encouraging AI companion designed to provide motivation and positivity.\n" ++
  "Your goal is to uplift users with positive encouragement, practical advice, and daily motivation.\n" ++
  "Be empathetic, understanding, and always maintain an optimistic yet realistic tone.\n" ++
  "Keep responses concise but meaningful.\n\n" ++
  "User message: " ++ message

/-- The fixed daily-quote prompt. -/
def quotePrompt : String :=
  "Generate a single inspiring and motivational quote.\n" ++
  "It should be uplifting, positive, and encouraging.\n" ++
  "Format: Just the quote itself, no attribution needed. Keep it concise and impactful."

/-- The search prompt built from the caller's query. -/
def searchPrompt (query : String) : String :=
  "Search for information about: " ++ query ++
  ". Provide a comprehensive summary with key findings."

/-- `POST /chat/motivational`. Authentication has already succeeded upstream
(`current_user` is the decoded claim, `uid` its `user_id`); `exec` maps the
prompt to the outcome of `agent.execute`, `ins` is the outcome of the awaited
history insert, `store` the `chat_messages` collection before the request
(returned updated), `newId`/`now` the generated record id and timestamp.
An `HTTPException` from agent resolution is re-raised (`except HTTPException:
raise`); every other exception lands in the catch-all, which renders
`MotivationalChatResponse(success=False, response="", error=str(exc))`. -/
def motivational_chat (cache : AgentCache) (config : AgentConfig)
    (uid message : String) (exec : String → Eff AgentResult) (ins : Eff Unit)
    (store : List ChatMessage) (newId : String) (now : Nat) :
    Except HTTPError (MotivationalChatResponse × AgentCache × List ChatMessage) :=
  match _get_or_create_agent cache "chat" config with
  | .error e => .error e
  | .ok (_agent, cache₂) =>
    match exec (motivationalPrompt message) with
    | .error e => .ok (⟨false, "", now, some e⟩, cache₂, store)
    | .ok result =>
      if result.success then
        match ins with
        | .error e => .ok (⟨false, "", now, some e⟩, cache₂, store)
        | .ok _ =>
          .ok (⟨true, result.content, now, none⟩, cache₂,
            store ++ [⟨newId, uid, message, result.content, now⟩])
      else .ok (⟨false, "", now, result.error⟩, cache₂, store)

/-- `GET /daily-quote` (authentication already succeeded upstream). -/
def get_daily_quote (cache : AgentCache) (config : AgentConfig)
    (exec : String → Eff AgentResult) (now : Nat) :
    Except HTTPError (DailyQuoteResponse × AgentCache) :=
  match _get_or_create_agent cache "chat" config with
  | .error e => .error e
  | .ok (_agent, cache₂) =>
    match exec quotePrompt with
    | .error e => .ok (⟨false, "", now, some e⟩, cache₂)
    | .ok result =>
      if result.success then .ok (⟨true, result.content, now, none⟩, cache₂)
      else .ok (⟨false, "", now, result.error⟩, cache₂)

/-- Newest-first order on conversation records (sort key is the creation
timestamp, descending — Mongo `.sort("timestamp", -1)`). -/
def newestFirst (a b : ChatMessage) : Prop := b.timestamp ≤ a.timestamp

instance : DecidableRel newestFirst := fun a b => Nat.decLe b.timestamp a.timestamp

instance : IsTotal ChatMessage newestFirst :=
  ⟨fun a b => le_total b.timestamp a.timestamp⟩

instance : IsTrans ChatMessage newestFirst :=
  ⟨fun _ _ _ h₁ h₂ => le_trans h₂ h₁⟩

/-- `GET /chat/history` (authentication already succeeded upstream, `uid` is
the claim's `user_id`). `fetched` is the outcome of the awaited Mongo query;
on `.ok` it carries the `chat_messages` collection contents, and the query
`find({"user_id": uid}).sort("timestamp", -1).limit(50)` is modelled as
filter, sort descending by timestamp, take 50. An exception lands in the
catch-all, which renders the error body. -/
def get_chat_history (uid : String) (fetched : Eff (List ChatMessage)) : HistoryBody :=
  match fetched with
  | .error e => ⟨false, none, some e⟩
  | .ok store =>
    ⟨true,
      some ((List.insertionSort newestFirst
        (store.filter (fun m => m.user_id = uid))).take 50),
      none⟩

/-- The `str(exc)` of the pydantic `ValidationError` raised when
`ChatResponse(metadata=None)` is constructed: `ChatResponse.metadata` is a
non-Optional `dict` field, so a `None` metadata is rejected by the response
model. The exact text is pydantic-version-dependent and external to the
gateway; no claim depends on it beyond its being the catch-all's error
string on this path. -/
def chatMetadataValidationError : String :=
  "1 validation error for ChatResponse\nmetadata\n  Input should be a valid dictionary"

/-- `POST /chat` (no authentication; the agent-type tag is caller-supplied).
An `HTTPException` from agent resolution is re-raised; the catch-all renders
`ChatResponse(success=False, response="", capabilities=[], error=str(exc))`.
The normal path builds `ChatResponse(success=..., response=..., ...,
metadata=response.metadata, error=response.error)`, copying the agent
result's fields unchanged — but `ChatResponse.metadata` is a non-Optional
`dict` field, so when the agent result's metadata is `None` the constructor
raises a pydantic `ValidationError`, which lands in the same catch-all. -/
def chat_with_agent (cache : AgentCache) (config : AgentConfig)
    (message agent_type : String) (exec : String → Eff AgentResult) :
    Except HTTPError (ChatResponse × AgentCache) :=
  match _get_or_create_agent cache agent_type config with
  | .error e => .error e
  | .ok (agent, cache₂) =>
    match exec message with
    | .error e => .ok (⟨false, "", agent_type, [], [], some e⟩, cache₂)
    | .ok response =>
      match response.metadata with
      | some m =>
        .ok (⟨response.success, response.content, agent_type,
          get_capabilities agent, m, response.error⟩, cache₂)
      | Option.none =>
        .ok (⟨false, "", agent_type, [], [], some chatMetadataValidationError⟩,
          cache₂)

/-- `POST /search` (no authentication; the tag is the literal "search").
On agent success the handler computes
`sources_count = int(metadata.get("tool_run_count", metadata.get("tools_used", 0)) or 0)`
with `metadata = result.metadata or {}`; an exception raised by `int(...)`
lands in the catch-all. `max_results` is accepted but never read, as in the
source. -/
def search_and_summarize (cache : AgentCache) (config : AgentConfig)
    (query : String) (max_results : Nat) (exec : String → Eff AgentResult) :
    Except HTTPError (SearchResponse × AgentCache) :=
  match _get_or_create_agent cache "search" config with
  | .error e => .error e
  | .ok (_agent, cache₂) =>
    match exec (searchPrompt query) with
    | .error e => .ok (⟨false, query, "", none, 0, some e⟩, cache₂)
    | .ok result =>
      if result.success then
        match pyIntCoerce (pyOr (toolCount (result.metadata.getD [])) (.int 0)) with
        | .ok n =>
          .ok (⟨true, query, result.content, some (result.metadata.getD []), n, none⟩,
            cache₂)
        | .error e => .ok (⟨false, query, "", none, 0, some e⟩, cache₂)
      else .ok (⟨false, query, "", none, 0, result.error⟩, cache₂)

/-- `GET /agents/capabilities` (no authentication): resolves the "search"
agent, then the "chat" agent, and reports both capability lists. -/
def get_agent_capabilities (cache : AgentCache) (config : AgentConfig) :
    Except HTTPError (CapabilitiesBody × AgentCache) :=
  match _get_or_create_agent cache "search" config with
  | .error e => .error e
  | .ok (search_agent, cache₂) =>
    match _get_or_create_agent cache₂ "chat" config with
    | .error e => .error e
    | .ok (chat_agent, cache₃) =>
      .ok (⟨true, some (get_capabilities search_agent),
        some (get_capabilities chat_agent), none⟩, cache₃)

/-! ### Cache lemmas -/

lemma alookup_append_some {k : String} {c : AgentCache} {v : AgentHandle}
    (h : alookup k c = some v) (l : AgentCache) : alookup k (c ++ l) = some v := by
  induction c with
  | nil => simp [alookup] at h
  | cons kv rest ih =>
    obtain ⟨k₂, v₂⟩ := kv
    by_cases hk : k = k₂
    · simp [alookup, hk] at h ⊢
      exact h
    · simp [alookup, hk] at h ⊢
      exact ih h

lemma alookup_append_none {k : String} {c : AgentCache}
    (h : alookup k c = none) (l : AgentCache) : alookup k (c ++ l) = alookup k l := by
  induction c with
  | nil => simp
  | cons kv rest ih =>
    obtain ⟨k₂, v₂⟩ := kv
    by_cases hk : k = k₂
    · simp [alookup, hk] at h
    · simp [alookup, hk] at h ⊢
      exact ih h

lemma resolve_chat_ok (cache : AgentCache) (config : AgentConfig) :
    ∃ a c₂, _get_or_create_agent cache "chat" config = .ok (a, c₂) := by
  unfold _get_or_create_agent
  cases hl : alookup "chat" cache with
  | some h => exact ⟨h, cache, rfl⟩
  | none =>
    refine ⟨.chatAgent config, cache ++ [("chat", .chatAgent config)], ?_⟩
    rw [if_neg (by decide), if_pos rfl]

lemma resolve_search_ok (cache : AgentCache) (config : AgentConfig) :
    ∃ a c₂, _get_or_create_agent cache "search" config = .ok (a, c₂) := by
  unfold _get_or_create_agent
  cases hl : alookup "search" cache with
  | some h => exact ⟨h, cache, rfl⟩
  | none =>
    exact ⟨.searchAgent config, cache ++ [("search", .searchAgent config)],
      by rw [if_pos rfl]⟩

/-! ### Claim C3 — agent instance cache invariant -/

/-- Claim C3: the cache maintains at most one live handle per agent-type tag.
Resolving a tag already present returns the existing handle with the cache
unchanged (no construction); resolving an absent recognized tag ("chat" or
"search") constructs exactly one new handle, appends exactly that one binding,
and returns it; after any successful resolution the resolved tag maps to the
returned handle, and every previously cached binding is preserved — so any
later resolution of a tag yields the same handle. -/
theorem C3_agent_cache_invariant :
    (∀ (cache : AgentCache) (t : String) (config : AgentConfig) (h : AgentHandle),
      alookup t cache = some h →
        _get_or_create_agent cache t config = .ok (h, cache)) ∧
    (∀ (cache : AgentCache) (config : AgentConfig),
      alookup "chat" cache = none →
        _get_or_create_agent cache "chat" config =
          .ok (.chatAgent config, cache ++ [("chat", .chatAgent config)])) ∧
    (∀ (cache : AgentCache) (config : AgentConfig),
      alookup "search" cache = none →
        _get_or_create_agent cache "search" config =
          .ok (.searchAgent config, cache ++ [("search", .searchAgent config)])) ∧
    (∀ (cache : AgentCache) (t : String) (config : AgentConfig) (a : AgentHandle)
        (c₂ : AgentCache),
      _get_or_create_agent cache t config = .ok (a, c₂) → alookup t c₂ = some a) ∧
    (∀ (cache : AgentCache) (t : String) (config : AgentConfig) (a : AgentHandle)
        (c₂ : AgentCache) (t₂ : String) (h₂ : AgentHandle),
      _get_or_create_agent cache t config = .ok (a, c₂) →
        alookup t₂ cache = some h₂ → alookup t₂ c₂ = some h₂) := by
  refine ⟨?_, ?_, ?_, ?_, ?_⟩
  · intro cache t config h hl
    unfold _get_or_create_agent
    rw [hl]
  · intro cache config hl
    unfold _get_or_create_agent
    rw [hl, if_neg (by decide), if_pos rfl]
  · intro cache config hl
    unfold _get_or_create_agent
    rw [hl, if_pos rfl]
  · intro cache t config a c₂ hok
    unfold _get_or_create_agent at hok
    cases hl : alookup t cache with
    | some h =>
      rw [hl] at hok
      simp only [Except.ok.injEq, Prod.mk.injEq] at hok
      obtain ⟨rfl, rfl⟩ := hok
      exact hl
    | none =>
      rw [hl] at hok
      by_cases hs : t = "search"
      · subst hs
        rw [if_pos rfl] at hok
        simp only [Except.ok.injEq, Prod.mk.injEq] at hok
        obtain ⟨rfl, rfl⟩ := hok
        rw [alookup_append_none hl]
        simp [alookup]
      · rw [if_neg hs] at hok
        by_cases hc : t = "chat"
        · subst hc
          rw [if_pos rfl] at hok
          simp only [Except.ok.injEq, Prod.mk.injEq] at hok
          obtain ⟨rfl, rfl⟩ := hok
          rw [alookup_append_none hl]
          simp [alookup]
        · rw [if_neg hc] at hok
          exact Except.noConfusion hok
  · intro cache t config a c₂ t₂ h₂ hok hl₂
    unfold _get_or_create_agent at hok
    cases hl : alookup t cache with
    | some h =>
      rw [hl] at hok
      simp only [Except.ok.injEq, Prod.mk.injEq] at hok
      obtain ⟨rfl, rfl⟩ := hok
      exact hl₂
    | none =>
      rw [hl] at hok
      by_cases hs : t = "search"
      · subst hs
        rw [if_pos rfl] at hok
        simp only [Except.ok.injEq, Prod.mk.injEq] at hok
        obtain ⟨rfl, rfl⟩ := hok
        exact alookup_append_some hl₂ _
      · rw [if_neg hs] at hok
        by_cases hc : t = "chat"
        · subst hc
          rw [if_pos rfl] at hok
          simp only [Except.ok.injEq, Prod.mk.injEq] at hok
          obtain ⟨rfl, rfl⟩ := hok
          exact alookup_append_some hl₂ _
        · rw [if_neg hc] at hok
          exact Except.noConfusion hok

/-- Witness for C3 at a concrete input: resolving "chat" against the empty
cache constructs and inserts exactly the one chat handle. -/
theorem C3_agent_cache_invariant_witness :
    _get_or_create_agent [] "chat" ⟨"k"⟩ =
      .ok (.chatAgent ⟨"k"⟩, [("chat", .chatAgent ⟨"k"⟩)]) :=
  C3_agent_cache_invariant.2.1 [] ⟨"k"⟩ rfl

/-! ### Handlers with fixed tags never return a transport error -/

lemma motivational_chat_ok (cache : AgentCache) (config : AgentConfig)
    (uid message : String) (exec : String → Eff AgentResult) (ins : Eff Unit)
    (store : List ChatMessage) (newId : String) (now : Nat) :
    exceptOk (motivational_chat cache config uid message exec ins store newId now)
      = true := by
  obtain ⟨a, c₂, hok⟩ := resolve_chat_ok cache config
  unfold motivational_chat
  rw [hok]
  cases exec (motivationalPrompt message) with
  | error e => rfl
  | ok result =>
    cases hs : result.success with
    | false => simp [hs, exceptOk]
    | true =>
      simp only [hs, if_true]
      cases ins with
      | error e => rfl
      | ok u => rfl

lemma get_daily_quote_ok (cache : AgentCache) (config : AgentConfig)
    (exec : String → Eff AgentResult) (now : Nat) :
    exceptOk (get_daily_quote cache config exec now) = true := by
  obtain ⟨a, c₂, hok⟩ := resolve_chat_ok cache config
  unfold get_daily_quote
  rw [hok]
  cases exec quotePrompt with
  | error e => rfl
  | ok result =>
    cases hs : result.success with
    | false => simp [hs, exceptOk]
    | true => simp [hs, exceptOk]

lemma search_and_summarize_ok (cache : AgentCache) (config : AgentConfig)
    (query : String) (max_results : Nat) (exec : String → Eff AgentResult) :
    exceptOk (search_and_summarize cache config query max_results exec) = true := by
  obtain ⟨a, c₂, hok⟩ := resolve_search_ok cache config
  unfold search_and_summarize
  rw [hok]
  cases exec (searchPrompt query) with
  | error e => rfl
  | ok result =>
    cases hs : result.success with
    | false => simp [hs, exceptOk]
    | true =>
      simp only [hs, if_true]
      cases pyIntCoerce (pyOr (toolCount (result.metadata.getD [])) (.int 0)) with
      | error e => rfl
      | ok n => rfl

lemma get_agent_capabilities_ok (cache : AgentCache) (config : AgentConfig) :
    exceptOk (get_agent_capabilities cache config) = true := by
  obtain ⟨a, c₂, hok⟩ := resolve_search_ok cache config
  unfold get_agent_capabilities
  rw [hok]
  dsimp only
  obtain ⟨b, c₃, hok₂⟩ := resolve_chat_ok c₂ config
  rw [hok₂]
  rfl

/-! ### Claim C10 — fixed agent tags never hit the bad-request branch -/

/-- Claim C10: for the operations whose agent-type tag is the literal "chat"
or "search" (companion chat, daily quote, search, capabilities), the
`UnknownAgentType` 400 branch of agent resolution is unreachable: resolution
always returns a handle, and none of those handlers ever returns a
transport-level error, whatever the cache and the effect outcomes. -/
theorem C10_fixed_tags_never_bad_request :
    (∀ (cache : AgentCache) (t : String) (config : AgentConfig),
      t = "chat" ∨ t = "search" →
        exceptOk (_get_or_create_agent cache t config) = true) ∧
    (∀ cache config uid message exec ins store newId now,
      exceptOk (motivational_chat cache config uid message exec ins store newId now)
        = true) ∧
    (∀ cache config exec now,
      exceptOk (get_daily_quote cache config exec now) = true) ∧
    (∀ cache config query max_results exec,
      exceptOk (search_and_summarize cache config query max_results exec) = true) ∧
    (∀ cache config,
      exceptOk (get_agent_capabilities cache config) = true) := by
  refine ⟨?_, motivational_chat_ok, get_daily_quote_ok, search_and_summarize_ok,
    get_agent_capabilities_ok⟩
  intro cache t config ht
  cases ht with
  | inl h =>
    subst h
    obtain ⟨a, c₂, hok⟩ := resolve_chat_ok cache config
    rw [hok]
    rfl
  | inr h =>
    subst h
    obtain ⟨a, c₂, hok⟩ := resolve_search_ok cache config
    rw [hok]
    rfl

/-- Witness for C10 at a concrete input: resolving the literal tag "chat"
against the empty cache does not produce a transport error. -/
theorem C10_fixed_tags_never_bad_request_witness :
    exceptOk (_get_or_create_agent [] "chat" ⟨"k"⟩) = true :=
  C10_fixed_tags_never_bad_request.1 [] "chat" ⟨"k"⟩ (Or.inl rfl)

/-! ### Claim C5 — token issuance/verification round trip -/

/-- Claim C5: a token issued at signup for a given identifier and username,
verified before its expiry against the same signing secret, succeeds and
yields exactly that identifier and username as the identity claim. -/
theorem C5_token_roundtrip (user_id username : String) (now : Nat) (secret : String)
    (verify_at : Nat) (h : verify_at < now + 86400 * 7) :
    _get_current_user (_create_token user_id username now secret) secret verify_at =
      .ok ⟨user_id, username, now + 86400 * 7⟩ := by
  unfold _get_current_user jwtDecode _create_token jwtEncode
  rw [if_pos rfl]
  dsimp only
  rw [if_neg (by omega)]

/-- Witness for C5 at a concrete input. -/
theorem C5_token_roundtrip_witness :
    _get_current_user (_create_token "u1" "alice" 0 "s3cr3t") "s3cr3t" 5 =
      .ok ⟨"u1", "alice", 604800⟩ :=
  C5_token_roundtrip "u1" "alice" 0 "s3cr3t" 5 (by omega)

/-! ### Claim C6 — token lifetime and expiry-specific error -/

/-- Claim C6: every issued token carries expiry exactly 604800 seconds
(7 days) after issuance; verifying a well-signed token at or after that
instant fails with the expiry-specific error, while a token whose signature
does not verify fails with the invalid-token error; the two errors are
distinct. -/
theorem C6_token_expiry (user_id username : String) (now : Nat) (secret : String) :
    ((_create_token user_id username now secret).payload.exp = now + 604800) ∧
    (∀ verify_at : Nat, now + 604800 ≤ verify_at →
      jwtDecode (_create_token user_id username now secret) secret verify_at =
        .error .expiredToken) ∧
    (∀ (tok : Token) (s : String) (verify_at : Nat),
      tok.sig ≠ (s, tok.payload) →
        jwtDecode tok s verify_at = .error .invalidToken) ∧
    AuthError.expiredToken ≠ AuthError.invalidToken := by
  refine ⟨rfl, ?_, ?_, by decide⟩
  · intro verify_at hv
    unfold jwtDecode _create_token jwtEncode
    rw [if_pos rfl]
    dsimp only
    rw [if_pos (by omega)]
  · intro tok s verify_at hs
    unfold jwtDecode
    rw [if_neg hs]

/-- Witness for C6 at a concrete input: the token issued at time 0 expires at
604800, and verification exactly at 604800 reports the expiry error. -/
theorem C6_token_expiry_witness :
    jwtDecode (_create_token "u1" "alice" 0 "s3cr3t") "s3cr3t" 604800 =
      .error .expiredToken :=
  (C6_token_expiry "u1" "alice" 0 "s3cr3t").2.1 604800 (by omega)

/-! ### Claim C7 — signup username conflict -/

/-- Claim C7: when the pre-insert lookup finds an identity with the requested
username (the lookup outcome being the faithful `find_one` over the `users`
collection and some stored identity has that username), signup returns
`success=false` with the username-conflict message, issues no token, and
leaves the collection unchanged. -/
theorem C7_signup_username_conflict (db : List UserDoc)
    (find_email : Eff (Option UserDoc)) (ins : Eff Unit)
    (username email password salt newId : String) (now : Nat) (secret : String)
    (hexists : ∃ u ∈ db, u.username = username) :
    signup db (.ok (userLookup db username)) find_email ins
        username email password salt newId now secret =
      (⟨false, none, none, some "Username already exists"⟩, db) := by
  obtain ⟨u, hu, hname⟩ := hexists
  have hsome : (userLookup db username).isSome := by
    unfold userLookup
    rw [List.find?_isSome]
    exact ⟨u, hu, by simp [hname]⟩
  obtain ⟨doc, hdoc⟩ := Option.isSome_iff_exists.mp hsome
  rw [hdoc]
  rfl

/-- Witness for C7 at a concrete input: signing up "alice" against a store
already holding an identity named "alice". -/
theorem C7_signup_username_conflict_witness :
    signup [⟨"id0", "alice", "a@x.com", "h0", 0⟩] (.ok (userLookup [⟨"id0", "alice", "a@x.com", "h0", 0⟩] "alice"))
        (.ok none) (.ok ()) "alice" "b@x.com" "pw" "s1" "id1" 9 "s3cr3t" =
      (⟨false, none, none, some "Username already exists"⟩,
        [⟨"id0", "alice", "a@x.com", "h0", 0⟩]) :=
  C7_signup_username_conflict [⟨"id0", "alice", "a@x.com", "h0", 0⟩] (.ok none) (.ok ())
    "alice" "b@x.com" "pw" "s1" "id1" 9 "s3cr3t"
    ⟨⟨"id0", "alice", "a@x.com", "h0", 0⟩, by simp, rfl⟩

/-! ### Claim C8 — login failures are indistinguishable -/

/-- Claim C8: a failing login — because the username matched no stored
identity, or because the stored identity's password hash rejected the
password — returns `success=false`, no token, and the one fixed message
"Invalid username or password"; since the response is the same constant in
both cases, it does not reveal whether the username existed. -/
theorem C8_login_failure_indistinguishable (found : Option UserDoc)
    (username password : String) (now : Nat) (secret : String)
    (h : ∀ doc, found = some doc → _verify_password password doc.password = false) :
    login (.ok found) username password now secret =
      ⟨false, none, none, some "Invalid username or password"⟩ := by
  cases found with
  | none => rfl
  | some doc =>
    unfold login
    dsimp only
    rw [if_neg]
    intro hv
    rw [h doc rfl] at hv
    exact Bool.false_ne_true hv

/-- Witness for C8 at a concrete input: logging in as a username absent from
the store yields the fixed failure response. -/
theorem C8_login_failure_indistinguishable_witness :
    login (.ok none) "bob" "pw" 3 "s3cr3t" =
      ⟨false, none, none, some "Invalid username or password"⟩ :=
  C8_login_failure_indistinguishable none "bob" "pw" 3 "s3cr3t"
    (fun doc hd => Option.noConfusion hd)

/-! ### Claim C9 — chat history: scoped, newest first, capped at 50 -/

/-- Claim C9: for an authenticated identity, history retrieval answers
`success=true` with at most 50 records, each owned by that identity, ordered
newest-first by creation timestamp, and the empty sequence (not an error)
when the store holds no record for that identity. -/
theorem C9_history_scoped_ordered_capped (uid : String) (store : List ChatMessage) :
    (get_chat_history uid (.ok store)).success = true ∧
    ∃ msgs, (get_chat_history uid (.ok store)).messages = some msgs ∧
      msgs.length ≤ 50 ∧
      (∀ m ∈ msgs, m.user_id = uid) ∧
      List.Sorted newestFirst msgs ∧
      ((∀ m ∈ store, m.user_id ≠ uid) → msgs = []) := by
  refine ⟨rfl,
    (List.insertionSort newestFirst (store.filter (fun m => m.user_id = uid))).take 50,
    rfl, List.length_take_le 50 _, ?_, ?_, ?_⟩
  · intro m hm
    have hsorted : m ∈ List.insertionSort newestFirst
        (store.filter (fun m => m.user_id = uid)) :=
      (List.take_sublist 50 _).subset hm
    have hfilter : m ∈ store.filter (fun m => m.user_id = uid) :=
      (List.mem_insertionSort newestFirst).mp hsorted
    exact of_decide_eq_true (List.mem_filter.mp hfilter).2
  · exact (List.sorted_insertionSort newestFirst _).sublist (List.take_sublist 50 _)
  · intro hnone
    have hfil : store.filter (fun m => m.user_id = uid) = [] := by
      rw [List.filter_eq_nil_iff]
      intro m hm
      simpa using hnone m hm
    rw [hfil]
    rfl

/-- Witness for C9 at a concrete input: an identity with no history gets
`success=true`. -/
theorem C9_history_scoped_ordered_capped_witness :
    (get_chat_history "u1" (.ok [])).success = true :=
  (C9_history_scoped_ordered_capped "u1" []).1

/-! ### Claim C2 — search sourcesCount derivation -/

/-- The `sources_count` field of a search handler's structured body, when the
handler produced one. -/
def sourcesCountOf? (x : Except HTTPError (SearchResponse × AgentCache)) : Option Int :=
  (bodyOf? x).map (fun b => b.sources_count)

lemma pyIntCoerce_pyOr_numeric (v : PyVal) :
    (∀ k, numericValue v = some k → pyIntCoerce (pyOr v (.int 0)) = .ok k) ∧
    (numericValue v = none →
      pyIntCoerce (pyOr v (.int 0)) = .ok 0 ∨
        ∃ e, pyIntCoerce (pyOr v (.int 0)) = .error e) := by
  cases v with
  | none => exact ⟨fun k h => Option.noConfusion h, fun _ => Or.inl rfl⟩
  | int n =>
    constructor
    · intro k h
      obtain rfl : n = k := Option.some.injEq n k ▸ h
      by_cases hn : n = 0
      · subst hn
        rfl
      · simp [pyOr, pyTruthy, pyIntCoerce, bne_iff_ne, hn]
    · intro h
      exact Option.noConfusion h
  | bool b =>
    constructor
    · intro k h
      obtain rfl : (if b then (1 : Int) else 0) = k := Option.some.injEq _ k ▸ h
      cases b <;> rfl
    · intro h
      exact Option.noConfusion h
  | str s =>
    constructor
    · intro k h
      by_cases hs : s = ""
      · subst hs
        exact Option.noConfusion h
      · have ht : pyTruthy (.str s) = true := by
          simp [pyTruthy, bne_iff_ne, hs]
        simp only [pyOr, ht, if_true, pyIntCoerce]
        rw [show numericValue (.str s) = pyStrToInt s from rfl] at h
        rw [h]
    · intro h
      by_cases hs : s = ""
      · subst hs
        exact Or.inl rfl
      · have ht : pyTruthy (.str s) = true := by
          simp [pyTruthy, bne_iff_ne, hs]
        refine Or.inr ⟨"invalid literal for int() with base 10: \x27" ++ s ++ "\x27", ?_⟩
        simp only [pyOr, ht, if_true, pyIntCoerce]
        rw [show numericValue (.str s) = pyStrToInt s from rfl] at h
        rw [h]

/-- Claim C2: on a successful search invocation, `sources_count` equals the
tool-invocation counter read from the metadata mapping when that entry is
numeric, and 0 when the metadata mapping is absent or the entry is
non-numeric; in every case the handler returns the declared `SearchResponse`
shape (an HTTP-200 structured body, never a transport error). -/
theorem C2_search_sources_count (cache : AgentCache) (config : AgentConfig)
    (query : String) (max_results : Nat) (r : AgentResult) (hs : r.success = true) :
    exceptOk (search_and_summarize cache config query max_results
      (fun _ => .ok r)) = true ∧
    (∀ m k, r.metadata = some m → numericValue (toolCount m) = some k →
      sourcesCountOf? (search_and_summarize cache config query max_results
        (fun _ => .ok r)) = some k) ∧
    (r.metadata = none →
      sourcesCountOf? (search_and_summarize cache config query max_results
        (fun _ => .ok r)) = some 0) ∧
    (∀ m, r.metadata = some m → numericValue (toolCount m) = none →
      sourcesCountOf? (search_and_summarize cache config query max_results
        (fun _ => .ok r)) = some 0) := by
  obtain ⟨a, c₂, hok⟩ := resolve_search_ok cache config
  refine ⟨?_, ?_, ?_, ?_⟩
  · unfold search_and_summarize
    rw [hok]
    dsimp only
    rw [hs]
    rw [if_pos rfl]
    cases pyIntCoerce (pyOr (toolCount (r.metadata.getD [])) (.int 0)) with
    | ok n => rfl
    | error e => rfl
  · intro m k hm hk
    unfold search_and_summarize
    rw [hok]
    dsimp only
    rw [hs]
    rw [if_pos rfl]
    rw [hm]
    rw [Option.getD_some]
    rw [(pyIntCoerce_pyOr_numeric (toolCount m)).1 k hk]
    rfl
  · intro hm
    unfold search_and_summarize
    rw [hok]
    dsimp only
    rw [hs, hm]
    rfl
  · intro m hm hnn
    unfold search_and_summarize
    rw [hok]
    dsimp only
    rw [hs]
    rw [if_pos rfl]
    rw [hm]
    rw [Option.getD_some]
    cases (pyIntCoerce_pyOr_numeric (toolCount m)).2 hnn with
    | inl h0 =>
      rw [h0]
      rfl
    | inr he =>
      obtain ⟨e, he⟩ := he
      rw [he]
      rfl

/-- Witness for C2 at a concrete input: metadata reporting
`tool_run_count = 3` yields `sources_count = 3`. -/
theorem C2_search_sources_count_witness :
    sourcesCountOf? (search_and_summarize [] ⟨"k"⟩ "rust" 5
      (fun _ => .ok ⟨true, "summary", some [("tool_run_count", .int 3)], none⟩)) =
      some 3 :=
  (C2_search_sources_count [] ⟨"k"⟩ "rust" 5
      ⟨true, "summary", some [("tool_run_count", .int 3)], none⟩ rfl).2.1
    [("tool_run_count", .int 3)] 3 rfl rfl

/-! ### Claim C4 — companion chat with a failing history append -/

/-- The `chat_messages` collection after the companion-chat handler, when it
produced a structured response. -/
def storeOf? :
    Except HTTPError (MotivationalChatResponse × AgentCache × List ChatMessage) →
      Option (List ChatMessage)
  | .ok (_, _, s) => some s
  | .error _ => none

/-- Counterexample to claim C4 as stated: the agent succeeds with the
non-empty text "You got this!" and the history append raises "db down"; the
handler's catch-all answers `success=false`, `response=""`, `error="db down"`.
The response neither reports success of the content-generation step
(`success` is `false`) nor carries or flags the produced text anywhere (the
`response` field is empty and the error string is just the store's message) —
the already-computed content is dropped, refuting the claim's final
disjunction. The request does not crash, which is the part of the claim that
does hold. -/
theorem C4_persistence_failure_counterexample :
    bodyOf? (motivational_chat [] ⟨"k"⟩ "u1" "help"
        (fun _ => .ok ⟨true, "You got this!", some [], none⟩)
        (.error "db down") [] "m1" 7) =
      some ⟨false, "", 7, some "db down"⟩ ∧
    ("You got this!" : String) ≠ "" := by
  exact ⟨rfl, by decide⟩

/-- Claim C4 (amended): when the agent invocation succeeds but the history
append fails, the companion-chat operation does not crash the request: the
failure surfaces through the catch-all path as a structured response with
`success=false`, empty response text, and the persistence failure's
description as the error string, and the store is left unchanged; the
already-computed response text is dropped from the response rather than
reported or flagged as produced-but-not-durable. -/
theorem C4_persistence_failure_amended (cache : AgentCache) (config : AgentConfig)
    (uid message : String) (r : AgentResult) (e : String) (store : List ChatMessage)
    (newId : String) (now : Nat) (hs : r.success = true) :
    exceptOk (motivational_chat cache config uid message (fun _ => .ok r)
      (.error e) store newId now) = true ∧
    bodyOf? (motivational_chat cache config uid message (fun _ => .ok r)
      (.error e) store newId now) = some ⟨false, "", now, some e⟩ ∧
    storeOf? (motivational_chat cache config uid message (fun _ => .ok r)
      (.error e) store newId now) = some store := by
  obtain ⟨a, c₂, hok⟩ := resolve_chat_ok cache config
  refine ⟨?_, ?_, ?_⟩ <;>
    · unfold motivational_chat
      rw [hok]
      dsimp only
      rw [hs]
      rw [if_pos rfl]
      rfl

/-- Witness for the amended C4 at a concrete input. -/
theorem C4_persistence_failure_amended_witness :
    bodyOf? (motivational_chat [] ⟨"k"⟩ "u1" "m" (fun _ => .ok ⟨true, "ok", none, none⟩)
      (.error "boom") [] "id" 1) = some ⟨false, "", 1, some "boom"⟩ :=
  (C4_persistence_failure_amended [] ⟨"k"⟩ "u1" "m" ⟨true, "ok", none, none⟩
    "boom" [] "id" 1 rfl).2.1

/-! ### Claim C1 — uniform response normalization -/

/-- Counterexample to claim C1 as stated: the generic agent chat operation is
not identity-scoped and requires no authentication, yet with the
caller-supplied tag "oracle" it surfaces a transport-level 400 bad-request
(re-raised `HTTPException`) instead of a structured success/error body — so
authentication failures on identity-scoped operations are not the only
failures surfaced as transport-level status codes. -/
theorem C1_unknown_agent_type_counterexample :
    chat_with_agent [] ⟨"k"⟩ "hi" "oracle"
        (fun _ => .ok ⟨true, "fine", none, none⟩) =
      .error ⟨400, "Unknown agent type \x27oracle\x27"⟩ ∧
    (400 : Nat) ≠ 401 := by
  exact ⟨rfl, by decide⟩

/-- Claim C1 (amended): every domain operation returns an HTTP-success
response carrying a structured body with a success flag for every outcome of
the agent and the stores, and when the agent reports failure the body has
`success=false`, an empty primary content field, and the agent's error
string — on the generic chat operation this holds as stated only when the
failed result carries a metadata mapping (and, per the agent contract stated
here as a hypothesis, empty content); an agent result with no metadata
mapping fails the `ChatResponse` model's validation on that operation and
surfaces through the catch-all as `success=false`, empty content, empty
capabilities, and the validation error string rather than the agent's error
string. Authentication failures on identity-scoped operations and the
unknown-agent-type bad-request on the generic agent chat operation (the only
operation whose agent-type tag is caller-supplied) are the only failures
surfaced as transport-level status codes instead of such a body. -/
theorem C1_uniform_response_normalization :
    (∀ (db : List UserDoc) find_email ins username email password salt newId now
        secret (e : String),
      signup db (.error e) find_email ins username email password salt newId now
        secret = (⟨false, none, none, some e⟩, db)) ∧
    (∀ (db : List UserDoc) ins username email password salt newId now secret
        (e : String),
      signup db (.ok none) (.error e) ins username email password salt newId now
        secret = (⟨false, none, none, some e⟩, db)) ∧
    (∀ (db : List UserDoc) username email password salt newId now secret
        (e : String),
      signup db (.ok none) (.ok none) (.error e) username email password salt newId
        now secret = (⟨false, none, none, some e⟩, db)) ∧
    (∀ username password now secret (e : String),
      login (.error e) username password now secret = ⟨false, none, none, some e⟩) ∧
    (∀ cache config uid message exec ins store newId now,
      exceptOk (motivational_chat cache config uid message exec ins store newId now)
        = true) ∧
    (∀ cache config uid message ins store newId now (e : String),
      bodyOf? (motivational_chat cache config uid message (fun _ => .error e) ins
        store newId now) = some ⟨false, "", now, some e⟩) ∧
    (∀ cache config uid message (r : AgentResult) ins store newId now,
      r.success = false →
        bodyOf? (motivational_chat cache config uid message (fun _ => .ok r) ins
          store newId now) = some ⟨false, "", now, r.error⟩) ∧
    (∀ cache config exec now,
      exceptOk (get_daily_quote cache config exec now) = true) ∧
    (∀ cache config now (e : String),
      bodyOf? (get_daily_quote cache config (fun _ => .error e) now) =
        some ⟨false, "", now, some e⟩) ∧
    (∀ cache config (r : AgentResult) now, r.success = false →
      bodyOf? (get_daily_quote cache config (fun _ => .ok r) now) =
        some ⟨false, "", now, r.error⟩) ∧
    (∀ uid (e : String),
      get_chat_history uid (.error e) = ⟨false, none, some e⟩) ∧
    (∀ uid store, (get_chat_history uid (.ok store)).success = true) ∧
    (∀ cache config message t (e : String) body c₂,
      chat_with_agent cache config message t (fun _ => .error e) = .ok (body, c₂) →
        body = ⟨false, "", t, [], [], some e⟩) ∧
    (∀ cache config message t (r : AgentResult) (m : Metadata) body c₂,
      chat_with_agent cache config message t (fun _ => .ok r) = .ok (body, c₂) →
        r.success = false → r.content = "" → r.metadata = some m →
          body.success = false ∧ body.response = "" ∧ body.error = r.error) ∧
    (∀ cache config message t (r : AgentResult) body c₂,
      chat_with_agent cache config message t (fun _ => .ok r) = .ok (body, c₂) →
        r.metadata = none →
          body = ⟨false, "", t, [], [], some chatMetadataValidationError⟩) ∧
    (∀ cache config message t exec,
      (alookup t cache).isSome = true ∨ t = "chat" ∨ t = "search" →
        exceptOk (chat_with_agent cache config message t exec) = true) ∧
    (∀ cache config query max_results exec,
      exceptOk (search_and_summarize cache config query max_results exec) = true) ∧
    (∀ cache config query max_results (e : String),
      bodyOf? (search_and_summarize cache config query max_results
        (fun _ => .error e)) = some ⟨false, query, "", none, 0, some e⟩) ∧
    (∀ cache config query max_results (r : AgentResult), r.success = false →
      bodyOf? (search_and_summarize cache config query max_results
        (fun _ => .ok r)) = some ⟨false, query, "", none, 0, r.error⟩) ∧
    (∀ cache config, exceptOk (get_agent_capabilities cache config) = true) := by
  refine ⟨fun db fe ins u em pw sa ni no se e => rfl,
    fun db ins u em pw sa ni no se e => rfl,
    fun db u em pw sa ni no se e => rfl,
    fun u pw no se e => rfl,
    motivational_chat_ok, ?_, ?_,
    get_daily_quote_ok, ?_, ?_,
    fun uid e => rfl, fun uid store => rfl,
    ?_, ?_, ?_, ?_,
    search_and_summarize_ok, ?_, ?_,
    get_agent_capabilities_ok⟩
  · intro cache config uid message ins store newId now e
    obtain ⟨a, c₂, hok⟩ := resolve_chat_ok cache config
    unfold motivational_chat
    rw [hok]
    rfl
  · intro cache config uid message r ins store newId now hs
    obtain ⟨a, c₂, hok⟩ := resolve_chat_ok cache config
    unfold motivational_chat
    rw [hok]
    dsimp only
    rw [hs]
    rw [if_neg Bool.false_ne_true]
    rfl
  · intro cache config now e
    obtain ⟨a, c₂, hok⟩ := resolve_chat_ok cache config
    unfold get_daily_quote
    rw [hok]
    rfl
  · intro cache config r now hs
    obtain ⟨a, c₂, hok⟩ := resolve_chat_ok cache config
    unfold get_daily_quote
    rw [hok]
    dsimp only
    rw [hs]
    rw [if_neg Bool.false_ne_true]
    rfl
  · intro cache config message t e body c₂ hok
    unfold chat_with_agent at hok
    cases hr : _get_or_create_agent cache t config with
    | error err =>
      rw [hr] at hok
      exact Except.noConfusion hok
    | ok p =>
      obtain ⟨agent, cache₂⟩ := p
      rw [hr] at hok
      dsimp only at hok
      simp only [Except.ok.injEq, Prod.mk.injEq] at hok
      exact hok.1.symm
  · intro cache config message t r m body c₂ hok hs hc hm
    unfold chat_with_agent at hok
    cases hr : _get_or_create_agent cache t config with
    | error err =>
      rw [hr] at hok
      exact Except.noConfusion hok
    | ok p =>
      obtain ⟨agent, cache₂⟩ := p
      rw [hr] at hok
      dsimp only at hok
      rw [hm] at hok
      simp only [Except.ok.injEq, Prod.mk.injEq] at hok
      obtain ⟨h1, h2⟩ := hok
      subst h1
      exact ⟨hs, hc, rfl⟩
  · intro cache config message t r body c₂ hok hm
    unfold chat_with_agent at hok
    cases hr : _get_or_create_agent cache t config with
    | error err =>
      rw [hr] at hok
      exact Except.noConfusion hok
    | ok p =>
      obtain ⟨agent, cache₂⟩ := p
      rw [hr] at hok
      dsimp only at hok
      rw [hm] at hok
      simp only [Except.ok.injEq, Prod.mk.injEq] at hok
      exact hok.1.symm
  · intro cache config message t exec ht
    unfold chat_with_agent
    have hres : ∃ a c₂, _get_or_create_agent cache t config = .ok (a, c₂) := by
      rcases ht with hsome | rfl | rfl
      · obtain ⟨h, hl⟩ := Option.isSome_iff_exists.mp hsome
        exact ⟨h, cache, by unfold _get_or_create_agent; rw [hl]⟩
      · exact resolve_chat_ok cache config
      · exact resolve_search_ok cache config
    obtain ⟨a, c₂, hok⟩ := hres
    rw [hok]
    cases exec message with
    | error e => rfl
    | ok r =>
      dsimp only
      cases r.metadata with
      | some m => rfl
      | none => rfl
  · intro cache config query max_results e
    obtain ⟨a, c₂, hok⟩ := resolve_search_ok cache config
    unfold search_and_summarize
    rw [hok]
    rfl
  · intro cache config query max_results r hs
    obtain ⟨a, c₂, hok⟩ := resolve_search_ok cache config
    unfold search_and_summarize
    rw [hok]
    dsimp only
    rw [hs]
    rw [if_neg Bool.false_ne_true]
    rfl

/-- Witness for the amended C1 at a concrete input: a failing agent result on
the companion-chat operation yields the structured failure body. -/
theorem C1_uniform_response_normalization_witness :
    bodyOf? (motivational_chat [] ⟨"k"⟩ "u1" "hello"
        (fun _ => .ok ⟨false, "", none, some "upstream unavailable"⟩)
        (.ok ()) [] "id" 4) =
      some ⟨false, "", 4, some "upstream unavailable"⟩ :=
  C1_uniform_response_normalization.2.2.2.2.2.2.1 [] ⟨"k"⟩ "u1" "hello"
    ⟨false, "", none, some "upstream unavailable"⟩ (.ok ()) [] "id" 4 rfl

end Gateway
